import Mathlib

/-!
Verification of the DiveWise risk-assessment engine (`app.py`, class
`RiskEngine` with its `SafetyPolicy` configuration) against its
natural-language specification.

Embedding choices:
* Python floats are modelled as rationals (`ℚ`); the engine only adds and
  compares measurement values, so the arithmetic is exact on the inputs
  considered here.
* Optional / possibly non-numeric dictionary entries are `Option ℚ`
  (resp. `Option ℤ` for the categorical weather code); `x or 0.0` becomes
  `orZero`, and the `isinstance(..., (int, float))` guards become a match
  on `some`.
* Reason and tip strings are modelled as inductive values.  A reason
  string embeds numbers formatted with `:.0f` / `:.1f` / `:.2f`; the
  corresponding constructor carries the rounded integer (value, tenths or
  hundredths), so two reasons are equal exactly when their rendered text
  is equal.  Tips are fixed strings, hence constant constructors.
* The mutable `reasons` / `tips` / `score` locals and the hard-stop flag
  (named `hard_flag` here) become a state record threaded through one
  function per source rule block.
-/

namespace DiveWeather

/-- Fog handling mode, the `FogPolicy = Literal["score","warn","caution"]`
alias of `app.py`. -/
inductive FogPolicy where
  | score
  | warn
  | caution
deriving DecidableEq

/-- The frozen `SafetyPolicy` dataclass of `app.py`, with its default
values. -/
structure SafetyPolicy where
  thunderstorm_hard_stop : Bool := true
  wind_mod : ℚ := 20
  wind_strong : ℚ := 30
  gust_mod : ℚ := 35
  gust_strong : ℚ := 45
  precip_mod : ℚ := 2
  precip_heavy : ℚ := 5
  wave_moderate : ℚ := 1
  wave_elevated : ℚ := 1.5
  wave_high : ℚ := 2
  swell_notable : ℚ := 1.5
  swell_large : ℚ := 2
  long_period_s : ℚ := 10
  score_fog_realtime : ℤ := 10
  score_fog_forecast : ℤ := 20
  score_wind_strong : ℤ := 40
  score_wind_mod : ℤ := 15
  score_precip_heavy : ℤ := 10
  score_precip_mod : ℤ := 5
  score_wave_high : ℤ := 50
  score_wave_elevated : ℤ := 20
  score_wave_moderate : ℤ := 8
  score_swell_large : ℤ := 40
  score_swell_notable : ℤ := 15
  score_surge_long_period : ℤ := 10
  score_missing_waves : ℤ := 5
  band_caution_min : ℤ := 20
  band_unsafe_min : ℤ := 60
deriving DecidableEq

/-- The module-level `REALTIME_POLICY = SafetyPolicy()` /
`FORECAST_POLICY = SafetyPolicy()` default policy. -/
def defaultPolicy : SafetyPolicy := {}

/-- The weather section of a reading (also the shape of one forecast
hour), keyed as produced by `divewise_weather.py` and consumed by
`RiskEngine`. -/
structure Wx where
  weather_code : Option ℤ := none
  wind_speed_10m_kmh : Option ℚ := none
  wind_gusts_10m_kmh : Option ℚ := none
  precipitation_mm : Option ℚ := none
  rain_mm : Option ℚ := none
  temperature_2m_c : Option ℚ := none
deriving DecidableEq

/-- The marine section of a real-time reading. -/
structure Marine where
  wave_height_m : Option ℚ := none
  swell_wave_height_m : Option ℚ := none
  swell_wave_period_s : Option ℚ := none
deriving DecidableEq

/-- A real-time reading: weather plus (possibly empty) marine section.
An absent section in the Python dict behaves as a dict with no keys,
i.e. all fields `none`. -/
structure Reading where
  weather : Wx := {}
  marine : Marine := {}
deriving DecidableEq

/-- The daily marine summary of a forecast. -/
structure MarineDaily where
  wave_height_max_m : Option ℚ := none
  swell_wave_height_max_m : Option ℚ := none
deriving DecidableEq

/-- A forecast window: hourly sequence plus daily marine summary. -/
structure Forecast where
  hourly : List Wx := []
  marine_daily : MarineDaily := {}
deriving DecidableEq

/-- Verdict status values. -/
inductive Status where
  | Safe
  | Caution
  | Unsafe
  | Unknown
deriving DecidableEq

/-- Reason strings appearing in verdicts.  Constructors ending in `RT`
come from `assess_realtime`, those ending in `F` from `assess_forecast`;
the integer payloads are the rounded numbers interpolated into the
f-string (whole value for `:.0f`, tenths for `:.1f`, hundredths for
`:.2f`), so constructor equality coincides with string equality. -/
inductive Reason where
  | thunderRT
  | fogRT
  | windStrongRT (w g : ℤ)
  | windModRT (w g : ℤ)
  | rainHeavyRT (p : ℤ)
  | rainModRT (p : ℤ)
  | waveHighRT (h : ℤ)
  | waveElevRT (h : ℤ)
  | waveModRT (h : ℤ)
  | waveMissingRT
  | swellLargeRT (h p : ℤ)
  | swellNotableRT (h p : ℤ)
  | swellLongRT (h p : ℤ)
  | thunderF
  | fogF
  | windStrongF (w g : ℤ)
  | windModF (w g : ℤ)
  | rainHeavyF (p : ℤ)
  | rainModF (p : ℤ)
  | waveHighF (h : ℤ)
  | waveElevF (h : ℤ)
  | waveModF (h : ℤ)
  | waveMissingF
  | swellLargeF (h : ℤ)
  | swellNotableF (h : ℤ)
  | noHourly
deriving DecidableEq

/-- Tip strings appearing in verdicts (all constant text in the source). -/
inductive Tip where
  | fogTip
  | strongWindTip
  | modWindTip
  | waveHighTip
  | waveElevTip
  | coldTip
deriving DecidableEq

/-- Python `f"{q:.0f}"` rendered as the rounded integer. -/
def fmt0 (q : ℚ) : ℤ := round q

/-- Python `f"{q:.1f}"` rendered as the number of tenths. -/
def fmt1 (q : ℚ) : ℤ := round (10 * q)

/-- Python `f"{q:.2f}"` rendered as the number of hundredths. -/
def fmt2 (q : ℚ) : ℤ := round (100 * q)

/-- Python `x or 0.0` on an optional numeric field. -/
def orZero : Option ℚ → ℚ
  | none => 0
  | some x => x

/-- Python `code in (c₁, c₂, …)` where `code` may be `None`. -/
def codeMem (c : Option ℤ) (l : List ℤ) : Bool :=
  match c with
  | none => false
  | some v => l.contains v

/-- The mutable locals of both assessors: accumulated reasons, tips,
running score and the hard-stop flag. -/
structure RState where
  reasons : List Reason := []
  tips : List Tip := []
  score : ℤ := 0
  hard_flag : Bool := false
deriving DecidableEq

/-- The initial state (`reasons = []`, `tips = []`, `score = 0`, hard-stop
flag false). -/
def initState : RState := {}

namespace RiskEngine

/-- `RiskEngine._map_status`. -/
def map_status (score : ℤ) (hard_flag : Bool) (policy : SafetyPolicy) : Status :=
  if hard_flag then Status.Unsafe
  else if policy.band_unsafe_min ≤ score then Status.Unsafe
  else if policy.band_caution_min ≤ score then Status.Caution
  else Status.Safe

/-- Helper of `RiskEngine._dedupe`: the loop with its `seen` set. -/
def dedupeAux {α : Type} [DecidableEq α] (seen : List α) : List α → List α
  | [] => []
  | a :: rest =>
      if a ∈ seen then dedupeAux seen rest
      else a :: dedupeAux (a :: seen) rest

/-- `RiskEngine._dedupe`: drop repeated elements, keeping first-seen
order. -/
def dedupe {α : Type} [DecidableEq α] (l : List α) : List α :=
  dedupeAux [] l

/-- The verdict dict built at the end of both assessors. -/
structure Verdict where
  status : Status
  score : Option ℤ
  reasons : List Reason
  tips : List Tip
deriving DecidableEq

/-- Final lines of both assessors: classify, force score 100 on a hard
stop, dedupe reasons and tips. -/
def finishVerdict (policy : SafetyPolicy) (st : RState) : Verdict :=
  { status := map_status st.score st.hard_flag policy
    score := some (if st.hard_flag then 100 else st.score)
    reasons := dedupe st.reasons
    tips := dedupe st.tips }

/-- Real-time thunderstorm rule (step 1). -/
def thunderStepRT (policy : SafetyPolicy) (code : Option ℤ) (st : RState) : RState :=
  if policy.thunderstorm_hard_stop && codeMem code [95, 96, 99] then
    { st with reasons := st.reasons ++ [Reason.thunderRT], hard_flag := true }
  else st

/-- Real-time fog rule (step 2). -/
def fogStepRT (policy : SafetyPolicy) (fog_policy : FogPolicy) (code : Option ℤ)
    (st : RState) : RState :=
  if codeMem code [45, 48] then
    let st' := { st with reasons := st.reasons ++ [Reason.fogRT],
                         tips := st.tips ++ [Tip.fogTip] }
    match fog_policy with
    | FogPolicy.score => { st' with score := st'.score + policy.score_fog_realtime }
    | FogPolicy.caution => { st' with score := max st'.score policy.band_caution_min }
    | FogPolicy.warn => st'
  else st

/-- Real-time wind rule (step 3). -/
def windStepRT (policy : SafetyPolicy) (wind gust : ℚ) (st : RState) : RState :=
  if policy.wind_strong ≤ wind ∨ policy.gust_strong ≤ gust then
    { st with reasons := st.reasons ++ [Reason.windStrongRT (fmt0 wind) (fmt0 gust)],
              tips := st.tips ++ [Tip.strongWindTip],
              score := st.score + policy.score_wind_strong }
  else if policy.wind_mod ≤ wind ∨ policy.gust_mod ≤ gust then
    { st with reasons := st.reasons ++ [Reason.windModRT (fmt0 wind) (fmt0 gust)],
              tips := st.tips ++ [Tip.modWindTip],
              score := st.score + policy.score_wind_mod }
  else st

/-- Real-time precipitation rule (step 4), on the summed
`precipitation_mm + rain_mm`. -/
def precipStepRT (policy : SafetyPolicy) (precip : ℚ) (st : RState) : RState :=
  if policy.precip_heavy ≤ precip then
    { st with reasons := st.reasons ++ [Reason.rainHeavyRT (fmt1 precip)],
              score := st.score + policy.score_precip_heavy }
  else if policy.precip_mod ≤ precip then
    { st with reasons := st.reasons ++ [Reason.rainModRT (fmt1 precip)],
              score := st.score + policy.score_precip_mod }
  else st

/-- Real-time wave-height rule (step 5). -/
def waveStepRT (policy : SafetyPolicy) (wave_h : Option ℚ) (st : RState) : RState :=
  match wave_h with
  | some w =>
      if policy.wave_high < w then
        { st with reasons := st.reasons ++ [Reason.waveHighRT (fmt2 w)],
                  tips := st.tips ++ [Tip.waveHighTip],
                  score := st.score + policy.score_wave_high }
      else if policy.wave_elevated < w then
        { st with reasons := st.reasons ++ [Reason.waveElevRT (fmt2 w)],
                  tips := st.tips ++ [Tip.waveElevTip],
                  score := st.score + policy.score_wave_elevated }
      else if policy.wave_moderate < w then
        { st with reasons := st.reasons ++ [Reason.waveModRT (fmt2 w)],
                  score := st.score + policy.score_wave_moderate }
      else st
  | none =>
      { st with reasons := st.reasons ++ [Reason.waveMissingRT],
                score := st.score + policy.score_missing_waves }

/-- Real-time swell rule (step 6); runs only when height and period are
both numeric. -/
def swellStepRT (policy : SafetyPolicy) (swell_h swell_p : Option ℚ) (st : RState) : RState :=
  match swell_h, swell_p with
  | some h, some p =>
      if policy.swell_large ≤ h then
        { st with reasons := st.reasons ++ [Reason.swellLargeRT (fmt2 h) (fmt0 p)],
                  score := st.score + policy.score_swell_large }
      else if policy.swell_notable ≤ h then
        { st with reasons := st.reasons ++ [Reason.swellNotableRT (fmt2 h) (fmt0 p)],
                  score := st.score + policy.score_swell_notable }
      else if 1 ≤ h ∧ policy.long_period_s ≤ p then
        { st with reasons := st.reasons ++ [Reason.swellLongRT (fmt2 h) (fmt0 p)],
                  score := st.score + policy.score_surge_long_period }
      else st
  | _, _ => st

/-- Real-time comfort tip (step 7, non-scoring). -/
def comfortStep (air_c : Option ℚ) (st : RState) : RState :=
  match air_c with
  | some t => if t < 16 then { st with tips := st.tips ++ [Tip.coldTip] } else st
  | none => st

/-- Steps 1-4 of `assess_realtime` (the rules driven by the weather
section alone), in source order. -/
def realtimeSteps14 (policy : SafetyPolicy) (fog_policy : FogPolicy) (wx : Wx)
    (st : RState) : RState :=
  precipStepRT policy (orZero wx.precipitation_mm + orZero wx.rain_mm)
    (windStepRT policy (orZero wx.wind_speed_10m_kmh) (orZero wx.wind_gusts_10m_kmh)
      (fogStepRT policy fog_policy wx.weather_code
        (thunderStepRT policy wx.weather_code st)))

/-- `RiskEngine.assess_realtime`. -/
def assess_realtime (reading : Reading) (policy : SafetyPolicy)
    (fog_policy : FogPolicy) : Verdict :=
  finishVerdict policy
    (comfortStep reading.weather.temperature_2m_c
      (swellStepRT policy reading.marine.swell_wave_height_m
          reading.marine.swell_wave_period_s
        (waveStepRT policy reading.marine.wave_height_m
          (realtimeSteps14 policy fog_policy reading.weather initState))))

/-- Forecast fog rule for one hour (no tip; forecast fog weight). -/
def fogStepF (policy : SafetyPolicy) (fog_policy : FogPolicy) (code : Option ℤ)
    (st : RState) : RState :=
  if codeMem code [45, 48] then
    let st' := { st with reasons := st.reasons ++ [Reason.fogF] }
    match fog_policy with
    | FogPolicy.score => { st' with score := st'.score + policy.score_fog_forecast }
    | FogPolicy.caution => { st' with score := max st'.score policy.band_caution_min }
    | FogPolicy.warn => st'
  else st

/-- Forecast wind rule for one hour (no tips). -/
def windStepF (policy : SafetyPolicy) (wind gust : ℚ) (st : RState) : RState :=
  if policy.wind_strong ≤ wind ∨ policy.gust_strong ≤ gust then
    { st with reasons := st.reasons ++ [Reason.windStrongF (fmt0 wind) (fmt0 gust)],
              score := st.score + policy.score_wind_strong }
  else if policy.wind_mod ≤ wind ∨ policy.gust_mod ≤ gust then
    { st with reasons := st.reasons ++ [Reason.windModF (fmt0 wind) (fmt0 gust)],
              score := st.score + policy.score_wind_mod }
  else st

/-- Forecast precipitation rule for one hour. -/
def precipStepF (policy : SafetyPolicy) (precip : ℚ) (st : RState) : RState :=
  if policy.precip_heavy ≤ precip then
    { st with reasons := st.reasons ++ [Reason.rainHeavyF (fmt1 precip)],
              score := st.score + policy.score_precip_heavy }
  else if policy.precip_mod ≤ precip then
    { st with reasons := st.reasons ++ [Reason.rainModF (fmt1 precip)],
              score := st.score + policy.score_precip_mod }
  else st

/-- One iteration of the hourly scan of `assess_forecast`; the second
component is `true` when the thunderstorm hard stop fired and the loop
executes `break` (in that case the hour's remaining rules are skipped). -/
def forecastHourStep (policy : SafetyPolicy) (fog_policy : FogPolicy) (h : Wx)
    (st : RState) : RState × Bool :=
  if policy.thunderstorm_hard_stop && codeMem h.weather_code [95, 96, 99] then
    ({ st with reasons := st.reasons ++ [Reason.thunderF], hard_flag := true }, true)
  else
    (precipStepF policy (orZero h.precipitation_mm + orZero h.rain_mm)
      (windStepF policy (orZero h.wind_speed_10m_kmh) (orZero h.wind_gusts_10m_kmh)
        (fogStepF policy fog_policy h.weather_code st)), false)

/-- The `for h in hourly` loop of `assess_forecast` with its `break`. -/
def scanHours (policy : SafetyPolicy) (fog_policy : FogPolicy) :
    List Wx → RState → RState
  | [], st => st
  | h :: rest, st =>
      let res := forecastHourStep policy fog_policy h st
      if res.2 then res.1 else scanHours policy fog_policy rest res.1

/-- Forecast daily wave-height rule (no tips in forecast mode). -/
def waveStepF (policy : SafetyPolicy) (wave_h : Option ℚ) (st : RState) : RState :=
  match wave_h with
  | some w =>
      if policy.wave_high < w then
        { st with reasons := st.reasons ++ [Reason.waveHighF (fmt2 w)],
                  score := st.score + policy.score_wave_high }
      else if policy.wave_elevated < w then
        { st with reasons := st.reasons ++ [Reason.waveElevF (fmt2 w)],
                  score := st.score + policy.score_wave_elevated }
      else if policy.wave_moderate < w then
        { st with reasons := st.reasons ++ [Reason.waveModF (fmt2 w)],
                  score := st.score + policy.score_wave_moderate }
      else st
  | none =>
      { st with reasons := st.reasons ++ [Reason.waveMissingF],
                score := st.score + policy.score_missing_waves }

/-- Forecast daily swell rule (only the large/notable tiers; no
long-period branch). -/
def swellStepF (policy : SafetyPolicy) (swell_h : Option ℚ) (st : RState) : RState :=
  match swell_h with
  | some h =>
      if policy.swell_large ≤ h then
        { st with reasons := st.reasons ++ [Reason.swellLargeF (fmt2 h)],
                  score := st.score + policy.score_swell_large }
      else if policy.swell_notable ≤ h then
        { st with reasons := st.reasons ++ [Reason.swellNotableF (fmt2 h)],
                  score := st.score + policy.score_swell_notable }
      else st
  | none => st

/-- `RiskEngine.assess_forecast`. -/
def assess_forecast (forecast : Forecast) (policy : SafetyPolicy)
    (fog_policy : FogPolicy) : Verdict :=
  if forecast.hourly.isEmpty then
    { status := Status.Unknown, score := none, reasons := [Reason.noHourly], tips := [] }
  else
    finishVerdict policy
      (swellStepF policy forecast.marine_daily.swell_wave_height_max_m
        (waveStepF policy forecast.marine_daily.wave_height_max_m
          (scanHours policy fog_policy forecast.hourly initState)))

/-- A state with extra leading reasons and an overridden hard flag. -/
def frameState (X : List Reason) (b : Bool) (st : RState) : RState :=
  { st with reasons := X ++ st.reasons, hard_flag := b }

/-- All score weights and the caution band minimum of a policy are
nonnegative (true of the default policy; negative weights could drive the
score below zero). -/
def NonnegWeights (policy : SafetyPolicy) : Prop :=
  0 ≤ policy.score_fog_realtime ∧ 0 ≤ policy.score_fog_forecast ∧
  0 ≤ policy.score_wind_strong ∧ 0 ≤ policy.score_wind_mod ∧
  0 ≤ policy.score_precip_heavy ∧ 0 ≤ policy.score_precip_mod ∧
  0 ≤ policy.score_wave_high ∧ 0 ≤ policy.score_wave_elevated ∧
  0 ≤ policy.score_wave_moderate ∧ 0 ≤ policy.score_swell_large ∧
  0 ≤ policy.score_swell_notable ∧ 0 ≤ policy.score_surge_long_period ∧
  0 ≤ policy.score_missing_waves ∧ 0 ≤ policy.band_caution_min

/-- The fixed scenario of the spec: weather code 3, wind 25 km/h, gusts
20 km/h, no precipitation, wave height 1.2 m. -/
def readingC9 : Reading :=
  { weather := { weather_code := some 3, wind_speed_10m_kmh := some 25,
                 wind_gusts_10m_kmh := some 20, precipitation_mm := some 0,
                 rain_mm := some 0 },
    marine := { wave_height_m := some 1.2 } }

/-- A reading triggering strong wind, heavy rain, high waves and large
swell at once (additive total 140 under the default policy). -/
def readingHighScore : Reading :=
  { weather := { wind_speed_10m_kmh := some 30, precipitation_mm := some 5 },
    marine := { wave_height_m := some 2.5, swell_wave_height_m := some 2,
                swell_wave_period_s := some 10 } }

/-- A thunderstorm reading (weather code 95, plus a strong wind signal). -/
def reading95 : Reading :=
  { weather := { weather_code := some 95, wind_speed_10m_kmh := some 30 } }

/-- A forecast hour with fog (weather code 45). -/
def hourFog : Wx := { weather_code := some 45 }

/-- A forecast hour with thunderstorm (weather code 95). -/
def hourThunder : Wx := { weather_code := some 95 }

/-- A forecast hour with moderate wind (25 km/h). -/
def hourWindy : Wx := { wind_speed_10m_kmh := some 25 }

/-- A daily marine summary whose wave height is present but below every
wave tier and with no swell data. -/
def marineQuiet : MarineDaily := { wave_height_max_m := some 1 }

end RiskEngine

namespace RiskEngine

/-! ### Helper lemmas about deduplication -/

theorem dedupeAux_congr {α : Type} [DecidableEq α] :
    ∀ (l s₁ s₂ : List α), (∀ x ∈ l, x ∈ s₁ ↔ x ∈ s₂) →
      dedupeAux s₁ l = dedupeAux s₂ l
  | [], _, _, _ => rfl
  | a :: l, s₁, s₂, h => by
      have ha := h a (List.mem_cons_self a l)
      by_cases hmem : a ∈ s₁
      · rw [dedupeAux, if_pos hmem, dedupeAux, if_pos (ha.mp hmem)]
        exact dedupeAux_congr l s₁ s₂ fun x hx => h x (List.mem_cons_of_mem a hx)
      · rw [dedupeAux, if_neg hmem, dedupeAux, if_neg (fun hc => hmem (ha.mpr hc))]
        refine congrArg (a :: ·) (dedupeAux_congr l (a :: s₁) (a :: s₂) ?_)
        intro x hx
        simp only [List.mem_cons]
        rw [h x (List.mem_cons_of_mem a hx)]

theorem dedupe_cons_of_not_mem {α : Type} [DecidableEq α] {a : α} {l : List α}
    (h : a ∉ l) : dedupe (a :: l) = a :: dedupe l := by
  rw [dedupe, dedupeAux, if_neg (List.not_mem_nil a), dedupe]
  refine congrArg (a :: ·) (dedupeAux_congr l [a] [] ?_)
  intro x hx
  simp only [List.mem_singleton, List.not_mem_nil, iff_false]
  exact fun hxa => h (hxa ▸ hx)

theorem dedupeAux_replicate_mem {α : Type} [DecidableEq α] {a : α} {seen : List α}
    (h : a ∈ seen) : ∀ n, dedupeAux seen (List.replicate n a) = []
  | 0 => rfl
  | n + 1 => by
      rw [List.replicate_succ, dedupeAux, if_pos h, dedupeAux_replicate_mem h n]

theorem dedupe_replicate {α : Type} [DecidableEq α] (a : α) (n : ℕ) (h : 1 ≤ n) :
    dedupe (List.replicate n a) = [a] := by
  obtain ⟨m, rfl⟩ := Nat.exists_eq_add_of_le h
  rw [Nat.add_comm, List.replicate_succ, dedupe, dedupeAux,
    if_neg (List.not_mem_nil a),
    dedupeAux_replicate_mem (List.mem_singleton.mpr rfl) m]

/-! ### Frame lemmas: every rule after the real-time thunderstorm check
appends reasons on the right, never reads or writes `hard_flag`, and is
therefore unaffected by a leading reason / forced hard flag. -/

theorem fogStepRT_frame (policy : SafetyPolicy) (fp : FogPolicy) (code : Option ℤ)
    (X : List Reason) (b : Bool) (st : RState) :
    fogStepRT policy fp code (frameState X b st) =
      frameState X b (fogStepRT policy fp code st) := by
  cases fp <;> simp only [fogStepRT, frameState] <;> split_ifs <;> simp

theorem windStepRT_frame (policy : SafetyPolicy) (wind gust : ℚ)
    (X : List Reason) (b : Bool) (st : RState) :
    windStepRT policy wind gust (frameState X b st) =
      frameState X b (windStepRT policy wind gust st) := by
  unfold windStepRT frameState
  split_ifs <;> simp

theorem precipStepRT_frame (policy : SafetyPolicy) (precip : ℚ)
    (X : List Reason) (b : Bool) (st : RState) :
    precipStepRT policy precip (frameState X b st) =
      frameState X b (precipStepRT policy precip st) := by
  unfold precipStepRT frameState
  split_ifs <;> simp

theorem waveStepRT_frame (policy : SafetyPolicy) (wave_h : Option ℚ)
    (X : List Reason) (b : Bool) (st : RState) :
    waveStepRT policy wave_h (frameState X b st) =
      frameState X b (waveStepRT policy wave_h st) := by
  cases wave_h <;> simp only [waveStepRT, frameState]
  · simp
  · split_ifs <;> simp

theorem swellStepRT_frame (policy : SafetyPolicy) (swell_h swell_p : Option ℚ)
    (X : List Reason) (b : Bool) (st : RState) :
    swellStepRT policy swell_h swell_p (frameState X b st) =
      frameState X b (swellStepRT policy swell_h swell_p st) := by
  cases swell_h <;> cases swell_p <;> simp only [swellStepRT, frameState] <;>
    split_ifs <;> simp

theorem comfortStep_frame (air_c : Option ℚ) (X : List Reason) (b : Bool) (st : RState) :
    comfortStep air_c (frameState X b st) = frameState X b (comfortStep air_c st) := by
  cases air_c <;> simp only [comfortStep, frameState] <;> split_ifs <;> simp

/-! ### The rules other than the thunderstorm check ignore the
`thunderstorm_hard_stop` flag of the policy. -/

theorem fogStepRT_hs_irrel (policy : SafetyPolicy) (b : Bool) (fp : FogPolicy)
    (code : Option ℤ) (st : RState) :
    fogStepRT { policy with thunderstorm_hard_stop := b } fp code st =
      fogStepRT policy fp code st := rfl

theorem windStepRT_hs_irrel (policy : SafetyPolicy) (b : Bool) (wind gust : ℚ)
    (st : RState) :
    windStepRT { policy with thunderstorm_hard_stop := b } wind gust st =
      windStepRT policy wind gust st := rfl

theorem precipStepRT_hs_irrel (policy : SafetyPolicy) (b : Bool) (precip : ℚ)
    (st : RState) :
    precipStepRT { policy with thunderstorm_hard_stop := b } precip st =
      precipStepRT policy precip st := rfl

theorem waveStepRT_hs_irrel (policy : SafetyPolicy) (b : Bool) (wave_h : Option ℚ)
    (st : RState) :
    waveStepRT { policy with thunderstorm_hard_stop := b } wave_h st =
      waveStepRT policy wave_h st := rfl

theorem swellStepRT_hs_irrel (policy : SafetyPolicy) (b : Bool)
    (swell_h swell_p : Option ℚ) (st : RState) :
    swellStepRT { policy with thunderstorm_hard_stop := b } swell_h swell_p st =
      swellStepRT policy swell_h swell_p st := rfl

/-! ### No rule after the real-time thunderstorm check emits the
thunderstorm reason. -/

theorem fogStepRT_no_thunder (policy : SafetyPolicy) (fp : FogPolicy) (code : Option ℤ)
    (st : RState) (h : Reason.thunderRT ∉ st.reasons) :
    Reason.thunderRT ∉ (fogStepRT policy fp code st).reasons := by
  cases fp <;> simp only [fogStepRT] <;> split_ifs <;> simp_all

theorem windStepRT_no_thunder (policy : SafetyPolicy) (wind gust : ℚ) (st : RState)
    (h : Reason.thunderRT ∉ st.reasons) :
    Reason.thunderRT ∉ (windStepRT policy wind gust st).reasons := by
  simp only [windStepRT]
  split_ifs <;> simp_all

theorem precipStepRT_no_thunder (policy : SafetyPolicy) (precip : ℚ) (st : RState)
    (h : Reason.thunderRT ∉ st.reasons) :
    Reason.thunderRT ∉ (precipStepRT policy precip st).reasons := by
  simp only [precipStepRT]
  split_ifs <;> simp_all

theorem waveStepRT_no_thunder (policy : SafetyPolicy) (wave_h : Option ℚ) (st : RState)
    (h : Reason.thunderRT ∉ st.reasons) :
    Reason.thunderRT ∉ (waveStepRT policy wave_h st).reasons := by
  cases wave_h <;> simp only [waveStepRT]
  · simp_all
  · split_ifs <;> simp_all

theorem swellStepRT_no_thunder (policy : SafetyPolicy) (swell_h swell_p : Option ℚ)
    (st : RState) (h : Reason.thunderRT ∉ st.reasons) :
    Reason.thunderRT ∉ (swellStepRT policy swell_h swell_p st).reasons := by
  cases swell_h <;> cases swell_p <;> simp only [swellStepRT] <;>
    first
    | (split_ifs <;> simp_all)
    | simp_all

theorem comfortStep_reasons (air_c : Option ℚ) (st : RState) :
    (comfortStep air_c st).reasons = st.reasons := by
  cases air_c <;> simp only [comfortStep] <;> split_ifs <;> rfl

/-! ### Tips are never touched by any forecast-mode rule. -/

theorem fogStepF_tips (policy : SafetyPolicy) (fp : FogPolicy) (code : Option ℤ)
    (st : RState) : (fogStepF policy fp code st).tips = st.tips := by
  cases fp <;> simp only [fogStepF] <;> split_ifs <;> rfl

theorem windStepF_tips (policy : SafetyPolicy) (wind gust : ℚ) (st : RState) :
    (windStepF policy wind gust st).tips = st.tips := by
  simp only [windStepF]
  split_ifs <;> rfl

theorem precipStepF_tips (policy : SafetyPolicy) (precip : ℚ) (st : RState) :
    (precipStepF policy precip st).tips = st.tips := by
  simp only [precipStepF]
  split_ifs <;> rfl

theorem forecastHourStep_tips (policy : SafetyPolicy) (fp : FogPolicy) (h : Wx)
    (st : RState) : (forecastHourStep policy fp h st).1.tips = st.tips := by
  simp only [forecastHourStep]
  split_ifs <;> simp [precipStepF_tips, windStepF_tips, fogStepF_tips]

theorem scanHours_tips (policy : SafetyPolicy) (fp : FogPolicy) :
    ∀ (hourly : List Wx) (st : RState), (scanHours policy fp hourly st).tips = st.tips
  | [], _ => rfl
  | h :: rest, st => by
      rw [scanHours]
      split
      · exact forecastHourStep_tips policy fp h st
      · rw [scanHours_tips policy fp rest _, forecastHourStep_tips]

theorem waveStepF_tips (policy : SafetyPolicy) (wave_h : Option ℚ) (st : RState) :
    (waveStepF policy wave_h st).tips = st.tips := by
  cases wave_h <;> simp only [waveStepF] <;> first | rfl | (split_ifs <;> rfl)

theorem swellStepF_tips (policy : SafetyPolicy) (swell_h : Option ℚ) (st : RState) :
    (swellStepF policy swell_h st).tips = st.tips := by
  cases swell_h <;> simp only [swellStepF] <;> first | rfl | (split_ifs <;> rfl)

/-! ### Claims -/

/-- C2: for every forecast whose hourly sequence is empty,
`assess_forecast` returns exactly status Unknown, score null, the single
reason "No hourly forecast available." and no tips; no other rule
contributes. -/
theorem C2_empty_hourly_unknown (f : Forecast) (policy : SafetyPolicy)
    (fog_policy : FogPolicy) (h : f.hourly = []) :
    assess_forecast f policy fog_policy =
      { status := Status.Unknown, score := none,
        reasons := [Reason.noHourly], tips := [] } := by
  simp [assess_forecast, h]

/-- Witness for C2 at the empty forecast under the default policy. -/
theorem C2_empty_hourly_unknown_witness :
    ({} : Forecast).hourly = [] ∧
      assess_forecast {} defaultPolicy FogPolicy.score =
        { status := Status.Unknown, score := none,
          reasons := [Reason.noHourly], tips := [] } :=
  ⟨rfl, C2_empty_hourly_unknown {} defaultPolicy FogPolicy.score rfl⟩

/-- C7: in `assess_realtime`, a fog weather code (45 or 48) appends the
visibility reason and tip in all three fog modes; mode "score" adds the
fog-realtime weight, mode "caution" floors the score at the caution band
minimum via `max`, and mode "warn" leaves the score unchanged. -/
theorem C7_fog_policy_modes (policy : SafetyPolicy) (code : Option ℤ) (st : RState)
    (h : codeMem code [45, 48] = true) :
    fogStepRT policy FogPolicy.score code st =
      { st with reasons := st.reasons ++ [Reason.fogRT],
                tips := st.tips ++ [Tip.fogTip],
                score := st.score + policy.score_fog_realtime } ∧
    fogStepRT policy FogPolicy.caution code st =
      { st with reasons := st.reasons ++ [Reason.fogRT],
                tips := st.tips ++ [Tip.fogTip],
                score := max st.score policy.band_caution_min } ∧
    fogStepRT policy FogPolicy.warn code st =
      { st with reasons := st.reasons ++ [Reason.fogRT],
                tips := st.tips ++ [Tip.fogTip] } := by
  refine ⟨?_, ?_, ?_⟩ <;> simp [fogStepRT, h]

/-- Witness for C7 at weather code 45, the default policy and the empty
state. -/
theorem C7_fog_policy_modes_witness :
    codeMem (some 45) [45, 48] = true ∧
    (fogStepRT defaultPolicy FogPolicy.score (some 45) initState =
      { initState with reasons := initState.reasons ++ [Reason.fogRT],
                       tips := initState.tips ++ [Tip.fogTip],
                       score := initState.score + defaultPolicy.score_fog_realtime } ∧
    fogStepRT defaultPolicy FogPolicy.caution (some 45) initState =
      { initState with reasons := initState.reasons ++ [Reason.fogRT],
                       tips := initState.tips ++ [Tip.fogTip],
                       score := max initState.score defaultPolicy.band_caution_min } ∧
    fogStepRT defaultPolicy FogPolicy.warn (some 45) initState =
      { initState with reasons := initState.reasons ++ [Reason.fogRT],
                       tips := initState.tips ++ [Tip.fogTip] }) :=
  ⟨rfl, C7_fog_policy_modes defaultPolicy (some 45) initState rfl⟩

/-- C8: in `assess_realtime`, an absent/non-numeric wave height adds the
missing-waves weight and the incomplete-sea-state reason, while an absent
swell height or swell period leaves the state untouched (no reason, no
weight). -/
theorem C8_missing_sea_state (policy : SafetyPolicy) (st : RState) :
    waveStepRT policy none st =
      { st with reasons := st.reasons ++ [Reason.waveMissingRT],
                score := st.score + policy.score_missing_waves } ∧
    (∀ swell_p : Option ℚ, swellStepRT policy none swell_p st = st) ∧
    (∀ swell_h : Option ℚ, swellStepRT policy swell_h none st = st) := by
  refine ⟨rfl, fun sp => ?_, fun sh => ?_⟩
  · cases sp <;> rfl
  · cases sh <;> rfl

/-- C9: the fixed scenario (code 3, wind 25, gusts 20, no rain, waves
1.2 m) under the default policy with fog mode "score" yields score 23
(15 wind-moderate + 8 wave-moderate), status Caution, and exactly the
two reasons wind-then-wave. -/
theorem C9_fixed_scenario :
    assess_realtime readingC9 defaultPolicy FogPolicy.score =
      { status := Status.Caution, score := some 23,
        reasons := [Reason.windModRT 25 20, Reason.waveModRT 120],
        tips := [Tip.modWindTip] } := by
  norm_num [assess_realtime, realtimeSteps14, thunderStepRT, fogStepRT, windStepRT,
    precipStepRT, waveStepRT, swellStepRT, comfortStep, finishVerdict, map_status,
    dedupe, dedupeAux, readingC9, defaultPolicy, initState, orZero, codeMem,
    fmt0, fmt1, fmt2, round, Int.floor]
  decide

/-- C10: `assess_forecast` never emits a tip: its verdict's tips list is
empty for every forecast, policy and fog mode. -/
theorem C10_forecast_no_tips (f : Forecast) (policy : SafetyPolicy)
    (fog_policy : FogPolicy) : (assess_forecast f policy fog_policy).tips = [] := by
  by_cases h : f.hourly.isEmpty <;>
    simp [assess_forecast, h, finishVerdict, swellStepF_tips, waveStepF_tips,
      scanHours_tips, initState, dedupe, dedupeAux]

/-- C1: with the hard stop enabled and a thunderstorm weather code (95,
96 or 99), `assess_realtime` reports status Unsafe and score 100 whatever
the other fields hold, and still evaluates the remaining rules: its
reasons are the thunderstorm reason followed by exactly the reasons of
the same reading assessed with the hard stop disabled, and its tips are
exactly that run's tips. -/
theorem C1_realtime_thunderstorm (r : Reading) (policy : SafetyPolicy)
    (fog_policy : FogPolicy) (hs : policy.thunderstorm_hard_stop = true)
    (hc : codeMem r.weather.weather_code [95, 96, 99] = true) :
    (assess_realtime r policy fog_policy).status = Status.Unsafe ∧
    (assess_realtime r policy fog_policy).score = some 100 ∧
    (assess_realtime r policy fog_policy).reasons =
      Reason.thunderRT ::
        (assess_realtime r { policy with thunderstorm_hard_stop := false }
          fog_policy).reasons ∧
    (assess_realtime r policy fog_policy).tips =
      (assess_realtime r { policy with thunderstorm_hard_stop := false }
        fog_policy).tips := by
  have hthunder : thunderStepRT policy r.weather.weather_code initState =
      frameState [Reason.thunderRT] true initState := by
    simp [thunderStepRT, hs, hc, frameState, initState]
  have hdis : thunderStepRT { policy with thunderstorm_hard_stop := false }
      r.weather.weather_code initState = initState := by
    simp [thunderStepRT]
  have henabled : assess_realtime r policy fog_policy =
      finishVerdict policy (frameState [Reason.thunderRT] true
        (comfortStep r.weather.temperature_2m_c
          (swellStepRT policy r.marine.swell_wave_height_m r.marine.swell_wave_period_s
            (waveStepRT policy r.marine.wave_height_m
              (precipStepRT policy
                  (orZero r.weather.precipitation_mm + orZero r.weather.rain_mm)
                (windStepRT policy (orZero r.weather.wind_speed_10m_kmh)
                    (orZero r.weather.wind_gusts_10m_kmh)
                  (fogStepRT policy fog_policy r.weather.weather_code initState))))))) := by
    rw [assess_realtime, realtimeSteps14, hthunder, fogStepRT_frame, windStepRT_frame,
      precipStepRT_frame, waveStepRT_frame, swellStepRT_frame, comfortStep_frame]
  have hdisabled : assess_realtime r { policy with thunderstorm_hard_stop := false }
        fog_policy =
      finishVerdict { policy with thunderstorm_hard_stop := false }
        (comfortStep r.weather.temperature_2m_c
          (swellStepRT policy r.marine.swell_wave_height_m r.marine.swell_wave_period_s
            (waveStepRT policy r.marine.wave_height_m
              (precipStepRT policy
                  (orZero r.weather.precipitation_mm + orZero r.weather.rain_mm)
                (windStepRT policy (orZero r.weather.wind_speed_10m_kmh)
                    (orZero r.weather.wind_gusts_10m_kmh)
                  (fogStepRT policy fog_policy r.weather.weather_code initState)))))) := by
    rw [assess_realtime, realtimeSteps14, hdis, fogStepRT_hs_irrel, windStepRT_hs_irrel,
      precipStepRT_hs_irrel, waveStepRT_hs_irrel, swellStepRT_hs_irrel]
  have hnot : Reason.thunderRT ∉
      (comfortStep r.weather.temperature_2m_c
        (swellStepRT policy r.marine.swell_wave_height_m r.marine.swell_wave_period_s
          (waveStepRT policy r.marine.wave_height_m
            (precipStepRT policy
                (orZero r.weather.precipitation_mm + orZero r.weather.rain_mm)
              (windStepRT policy (orZero r.weather.wind_speed_10m_kmh)
                  (orZero r.weather.wind_gusts_10m_kmh)
                (fogStepRT policy fog_policy r.weather.weather_code initState)))))).reasons := by
    rw [comfortStep_reasons]
    exact swellStepRT_no_thunder _ _ _ _
      (waveStepRT_no_thunder _ _ _
        (precipStepRT_no_thunder _ _ _
          (windStepRT_no_thunder _ _ _ _
            (fogStepRT_no_thunder _ _ _ _ (by simp [initState])))))
  refine ⟨?_, ?_, ?_, ?_⟩
  · rw [henabled]
    simp [finishVerdict, map_status, frameState]
  · rw [henabled]
    simp [finishVerdict, frameState]
  · rw [henabled, hdisabled]
    simp only [finishVerdict, frameState, List.singleton_append]
    exact dedupe_cons_of_not_mem hnot
  · rw [henabled, hdisabled]
    simp [finishVerdict, frameState]

/-- Witness for C1 at the thunderstorm reading (code 95, wind 30) under
the default policy. -/
theorem C1_realtime_thunderstorm_witness :
    defaultPolicy.thunderstorm_hard_stop = true ∧
    codeMem reading95.weather.weather_code [95, 96, 99] = true ∧
    ((assess_realtime reading95 defaultPolicy FogPolicy.score).status = Status.Unsafe ∧
    (assess_realtime reading95 defaultPolicy FogPolicy.score).score = some 100 ∧
    (assess_realtime reading95 defaultPolicy FogPolicy.score).reasons =
      Reason.thunderRT ::
        (assess_realtime reading95
          { defaultPolicy with thunderstorm_hard_stop := false } FogPolicy.score).reasons ∧
    (assess_realtime reading95 defaultPolicy FogPolicy.score).tips =
      (assess_realtime reading95
        { defaultPolicy with thunderstorm_hard_stop := false } FogPolicy.score).tips) :=
  ⟨rfl, rfl, C1_realtime_thunderstorm reading95 defaultPolicy FogPolicy.score rfl rfl⟩

/-! ### Break behaviour of the forecast hourly scan. -/

theorem forecastHourStep_break_iff (policy : SafetyPolicy) (fp : FogPolicy) (h : Wx)
    (st : RState) :
    (forecastHourStep policy fp h st).2 =
      (policy.thunderstorm_hard_stop && codeMem h.weather_code [95, 96, 99]) := by
  simp only [forecastHourStep]
  split_ifs with hc <;> simp [hc]

theorem forecastHourStep_hard_of_break (policy : SafetyPolicy) (fp : FogPolicy)
    (h : Wx) (st : RState) (hb : (forecastHourStep policy fp h st).2 = true) :
    (forecastHourStep policy fp h st).1.hard_flag = true := by
  simp only [forecastHourStep] at hb ⊢
  split_ifs at hb ⊢ with hc
  rfl

theorem scanHours_stop (policy : SafetyPolicy) (fp : FogPolicy) (h : Wx)
    (hth : (policy.thunderstorm_hard_stop && codeMem h.weather_code [95, 96, 99]) = true) :
    ∀ (pre post : List Wx) (st : RState),
      scanHours policy fp (pre ++ h :: post) st = scanHours policy fp (pre ++ [h]) st
  | [], post, st => by
      have hb : (forecastHourStep policy fp h st).2 = true := by
        rw [forecastHourStep_break_iff, hth]
      simp only [List.nil_append, scanHours, hb, if_true]
  | p :: pre, post, st => by
      simp only [List.cons_append, scanHours]
      split
      · rfl
      · exact scanHours_stop policy fp h hth pre post _

theorem scanHours_hard_of_mem (policy : SafetyPolicy) (fp : FogPolicy) (h : Wx)
    (hth : (policy.thunderstorm_hard_stop && codeMem h.weather_code [95, 96, 99]) = true) :
    ∀ (hourly : List Wx) (st : RState), h ∈ hourly →
      (scanHours policy fp hourly st).hard_flag = true
  | [], _, hmem => absurd hmem (List.not_mem_nil h)
  | p :: rest, st, hmem => by
      rw [scanHours]
      by_cases hb : (forecastHourStep policy fp p st).2 = true
      · simp only [hb, if_true]
        exact forecastHourStep_hard_of_break policy fp p st hb
      · simp only [hb, if_false]
        rcases List.mem_cons.mp hmem with rfl | hmem'
        · rw [forecastHourStep_break_iff, hth] at hb
          exact absurd rfl hb
        · exact scanHours_hard_of_mem policy fp h hth rest _ hmem'

theorem waveStepF_hard (policy : SafetyPolicy) (wave_h : Option ℚ) (st : RState) :
    (waveStepF policy wave_h st).hard_flag = st.hard_flag := by
  cases wave_h <;> simp only [waveStepF] <;> first | rfl | (split_ifs <;> rfl)

theorem swellStepF_hard (policy : SafetyPolicy) (swell_h : Option ℚ) (st : RState) :
    (swellStepF policy swell_h st).hard_flag = st.hard_flag := by
  cases swell_h <;> simp only [swellStepF] <;> first | rfl | (split_ifs <;> rfl)

/-- C3: in `assess_forecast`, an hour with a thunderstorm weather code
(hard stop enabled) stops the hourly scan: the verdict is identical to
the verdict of the forecast truncated right after that hour, and the
reported score is 100 with status Unsafe. -/
theorem C3_forecast_thunderstorm_break (f : Forecast) (policy : SafetyPolicy)
    (fog_policy : FogPolicy) (pre post : List Wx) (h : Wx)
    (hs : policy.thunderstorm_hard_stop = true)
    (hc : codeMem h.weather_code [95, 96, 99] = true)
    (hh : f.hourly = pre ++ h :: post) :
    assess_forecast f policy fog_policy =
      assess_forecast { f with hourly := pre ++ [h] } policy fog_policy ∧
    (assess_forecast f policy fog_policy).score = some 100 ∧
    (assess_forecast f policy fog_policy).status = Status.Unsafe := by
  have hth : (policy.thunderstorm_hard_stop && codeMem h.weather_code [95, 96, 99])
      = true := by simp [hs, hc]
  have hne₁ : (pre ++ h :: post).isEmpty = false := by cases pre <;> rfl
  have hne₂ : (pre ++ [h]).isEmpty = false := by cases pre <;> rfl
  have hmain : assess_forecast f policy fog_policy =
      finishVerdict policy
        (swellStepF policy f.marine_daily.swell_wave_height_max_m
          (waveStepF policy f.marine_daily.wave_height_max_m
            (scanHours policy fog_policy (pre ++ h :: post) initState))) := by
    rw [assess_forecast, hh, hne₁]
    rfl
  have hhard : (swellStepF policy f.marine_daily.swell_wave_height_max_m
      (waveStepF policy f.marine_daily.wave_height_max_m
        (scanHours policy fog_policy (pre ++ h :: post) initState))).hard_flag
      = true := by
    rw [swellStepF_hard, waveStepF_hard]
    exact scanHours_hard_of_mem policy fog_policy h hth _ initState (by simp)
  refine ⟨?_, ?_, ?_⟩
  · rw [hmain, assess_forecast]
    simp only [hne₂, Bool.false_eq_true, if_false]
    rw [scanHours_stop policy fog_policy h hth pre post initState]
  · rw [hmain]
    simp [finishVerdict, hhard]
  · rw [hmain]
    simp [finishVerdict, map_status, hhard]

/-- Witness for C3: a three-hour forecast whose middle hour carries
weather code 95, under the default policy. -/
theorem C3_forecast_thunderstorm_break_witness :
    defaultPolicy.thunderstorm_hard_stop = true ∧
    codeMem hourThunder.weather_code [95, 96, 99] = true ∧
    ({ hourly := [hourWindy, hourThunder, hourFog] } : Forecast).hourly =
      [hourWindy] ++ hourThunder :: [hourFog] ∧
    (assess_forecast { hourly := [hourWindy, hourThunder, hourFog] } defaultPolicy
        FogPolicy.score =
      assess_forecast
        { ({ hourly := [hourWindy, hourThunder, hourFog] } : Forecast) with
            hourly := [hourWindy] ++ [hourThunder] } defaultPolicy FogPolicy.score ∧
    (assess_forecast { hourly := [hourWindy, hourThunder, hourFog] } defaultPolicy
        FogPolicy.score).score = some 100 ∧
    (assess_forecast { hourly := [hourWindy, hourThunder, hourFog] } defaultPolicy
        FogPolicy.score).status = Status.Unsafe) :=
  ⟨rfl, rfl, rfl,
    C3_forecast_thunderstorm_break { hourly := [hourWindy, hourThunder, hourFog] }
      defaultPolicy FogPolicy.score [hourWindy] [hourFog] hourThunder rfl rfl rfl⟩

/-! ### An hour that triggers only the moderate-wind rule. -/

theorem forecastHourStep_modwind (policy : SafetyPolicy) (fp : FogPolicy) (h : Wx)
    (st : RState)
    (hth : (policy.thunderstorm_hard_stop && codeMem h.weather_code [95, 96, 99]) = false)
    (hfog : codeMem h.weather_code [45, 48] = false)
    (hstrong : ¬(policy.wind_strong ≤ orZero h.wind_speed_10m_kmh ∨
        policy.gust_strong ≤ orZero h.wind_gusts_10m_kmh))
    (hmod : policy.wind_mod ≤ orZero h.wind_speed_10m_kmh ∨
        policy.gust_mod ≤ orZero h.wind_gusts_10m_kmh)
    (hrainH : ¬ policy.precip_heavy ≤ orZero h.precipitation_mm + orZero h.rain_mm)
    (hrainM : ¬ policy.precip_mod ≤ orZero h.precipitation_mm + orZero h.rain_mm) :
    forecastHourStep policy fp h st =
      ({ st with
          reasons := st.reasons ++
            [Reason.windModF (fmt0 (orZero h.wind_speed_10m_kmh))
              (fmt0 (orZero h.wind_gusts_10m_kmh))],
          score := st.score + policy.score_wind_mod }, false) := by
  simp [forecastHourStep, fogStepF, windStepF, precipStepF, hth, hfog, hstrong, hmod,
    hrainH, hrainM]

theorem scanHours_replicate_modwind (policy : SafetyPolicy) (fp : FogPolicy) (h : Wx)
    (hth : (policy.thunderstorm_hard_stop && codeMem h.weather_code [95, 96, 99]) = false)
    (hfog : codeMem h.weather_code [45, 48] = false)
    (hstrong : ¬(policy.wind_strong ≤ orZero h.wind_speed_10m_kmh ∨
        policy.gust_strong ≤ orZero h.wind_gusts_10m_kmh))
    (hmod : policy.wind_mod ≤ orZero h.wind_speed_10m_kmh ∨
        policy.gust_mod ≤ orZero h.wind_gusts_10m_kmh)
    (hrainH : ¬ policy.precip_heavy ≤ orZero h.precipitation_mm + orZero h.rain_mm)
    (hrainM : ¬ policy.precip_mod ≤ orZero h.precipitation_mm + orZero h.rain_mm) :
    ∀ (n : ℕ) (st : RState),
      scanHours policy fp (List.replicate n h) st =
        { st with
            reasons := st.reasons ++
              List.replicate n (Reason.windModF (fmt0 (orZero h.wind_speed_10m_kmh))
                (fmt0 (orZero h.wind_gusts_10m_kmh))),
            score := st.score + (n : ℤ) * policy.score_wind_mod }
  | 0, st => by simp [scanHours]
  | n + 1, st => by
      rw [List.replicate_succ, scanHours,
        forecastHourStep_modwind policy fp h st hth hfog hstrong hmod hrainH hrainM]
      simp only [if_false, Bool.false_eq_true]
      rw [scanHours_replicate_modwind policy fp h hth hfog hstrong hmod hrainH hrainM n _]
      simp only [List.append_assoc, List.singleton_append, Nat.cast_succ]
      rw [← List.replicate_succ]
      have harith : st.score + policy.score_wind_mod + (n : ℤ) * policy.score_wind_mod =
          st.score + ((n : ℤ) + 1) * policy.score_wind_mod := by ring
      rw [harith]

/-- C4: per-hour contributions are additive across hours with no
per-rule cap: n hours that all trigger the moderate-wind rule (and
nothing else) contribute n times the moderate-wind weight to the score,
while the n identical reason strings collapse to one entry after
deduplication (with a quiet daily marine summary contributing nothing). -/
theorem C4_additive_hours_dedup (f : Forecast) (policy : SafetyPolicy)
    (fog_policy : FogPolicy) (h : Wx) (n : ℕ) (w : ℚ) (hn : 1 ≤ n)
    (hh : f.hourly = List.replicate n h)
    (hth : (policy.thunderstorm_hard_stop && codeMem h.weather_code [95, 96, 99]) = false)
    (hfog : codeMem h.weather_code [45, 48] = false)
    (hstrong : ¬(policy.wind_strong ≤ orZero h.wind_speed_10m_kmh ∨
        policy.gust_strong ≤ orZero h.wind_gusts_10m_kmh))
    (hmod : policy.wind_mod ≤ orZero h.wind_speed_10m_kmh ∨
        policy.gust_mod ≤ orZero h.wind_gusts_10m_kmh)
    (hrainH : ¬ policy.precip_heavy ≤ orZero h.precipitation_mm + orZero h.rain_mm)
    (hrainM : ¬ policy.precip_mod ≤ orZero h.precipitation_mm + orZero h.rain_mm)
    (hwaveEq : f.marine_daily.wave_height_max_m = some w)
    (hwaveH : ¬ policy.wave_high < w) (hwaveE : ¬ policy.wave_elevated < w)
    (hwaveM : ¬ policy.wave_moderate < w)
    (hswell : f.marine_daily.swell_wave_height_max_m = none) :
    (assess_forecast f policy fog_policy).score =
      some ((n : ℤ) * policy.score_wind_mod) ∧
    (assess_forecast f policy fog_policy).reasons =
      [Reason.windModF (fmt0 (orZero h.wind_speed_10m_kmh))
        (fmt0 (orZero h.wind_gusts_10m_kmh))] ∧
    (assess_forecast f policy fog_policy).tips = [] := by
  obtain ⟨m, rfl⟩ := Nat.exists_eq_add_of_le hn
  have hne : (List.replicate (1 + m) h).isEmpty = false := by
    rw [Nat.add_comm, List.replicate_succ]
    rfl
  have hmain : assess_forecast f policy fog_policy =
      finishVerdict policy
        (swellStepF policy f.marine_daily.swell_wave_height_max_m
          (waveStepF policy f.marine_daily.wave_height_max_m
            (scanHours policy fog_policy (List.replicate (1 + m) h) initState))) := by
    rw [assess_forecast, hh, hne]
    rfl
  rw [hmain,
    scanHours_replicate_modwind policy fog_policy h hth hfog hstrong hmod hrainH hrainM,
    hwaveEq, hswell]
  have hwave : waveStepF policy (some w)
      { initState with
          reasons := initState.reasons ++
            List.replicate (1 + m) (Reason.windModF (fmt0 (orZero h.wind_speed_10m_kmh))
              (fmt0 (orZero h.wind_gusts_10m_kmh))),
          score := initState.score + ((1 + m : ℕ) : ℤ) * policy.score_wind_mod } =
      { initState with
          reasons := initState.reasons ++
            List.replicate (1 + m) (Reason.windModF (fmt0 (orZero h.wind_speed_10m_kmh))
              (fmt0 (orZero h.wind_gusts_10m_kmh))),
          score := initState.score + ((1 + m : ℕ) : ℤ) * policy.score_wind_mod } := by
    simp [waveStepF, hwaveH, hwaveE, hwaveM]
  rw [hwave]
  refine ⟨?_, ?_, ?_⟩
  · simp [swellStepF, finishVerdict, initState]
  · simp only [swellStepF, finishVerdict, initState, List.nil_append]
    exact dedupe_replicate _ _ (Nat.le_add_right 1 m)
  · simp [swellStepF, finishVerdict, initState, dedupe, dedupeAux]

/-- Witness for C4: three hours of 25 km/h wind under the default policy
with a quiet daily marine summary. -/
theorem C4_additive_hours_dedup_witness :
    ((({ hourly := List.replicate 3 hourWindy, marine_daily := marineQuiet } : Forecast).hourly
        = List.replicate 3 hourWindy) ∧
      (defaultPolicy.thunderstorm_hard_stop && codeMem hourWindy.weather_code [95, 96, 99])
        = false ∧
      codeMem hourWindy.weather_code [45, 48] = false ∧
      ¬(defaultPolicy.wind_strong ≤ orZero hourWindy.wind_speed_10m_kmh ∨
          defaultPolicy.gust_strong ≤ orZero hourWindy.wind_gusts_10m_kmh) ∧
      (defaultPolicy.wind_mod ≤ orZero hourWindy.wind_speed_10m_kmh ∨
          defaultPolicy.gust_mod ≤ orZero hourWindy.wind_gusts_10m_kmh) ∧
      ¬ defaultPolicy.precip_heavy ≤
          orZero hourWindy.precipitation_mm + orZero hourWindy.rain_mm ∧
      ¬ defaultPolicy.precip_mod ≤
          orZero hourWindy.precipitation_mm + orZero hourWindy.rain_mm ∧
      marineQuiet.wave_height_max_m = some 1 ∧
      ¬ defaultPolicy.wave_high < (1 : ℚ) ∧
      ¬ defaultPolicy.wave_elevated < (1 : ℚ) ∧
      ¬ defaultPolicy.wave_moderate < (1 : ℚ) ∧
      marineQuiet.swell_wave_height_max_m = none) ∧
    (assess_forecast { hourly := List.replicate 3 hourWindy, marine_daily := marineQuiet }
        defaultPolicy FogPolicy.score).score =
      some ((3 : ℤ) * defaultPolicy.score_wind_mod) ∧
    (assess_forecast { hourly := List.replicate 3 hourWindy, marine_daily := marineQuiet }
        defaultPolicy FogPolicy.score).reasons =
      [Reason.windModF (fmt0 (orZero hourWindy.wind_speed_10m_kmh))
        (fmt0 (orZero hourWindy.wind_gusts_10m_kmh))] ∧
    (assess_forecast { hourly := List.replicate 3 hourWindy, marine_daily := marineQuiet }
        defaultPolicy FogPolicy.score).tips = [] := by
  have h1 : ¬(defaultPolicy.wind_strong ≤ orZero hourWindy.wind_speed_10m_kmh ∨
      defaultPolicy.gust_strong ≤ orZero hourWindy.wind_gusts_10m_kmh) := by
    norm_num [defaultPolicy, hourWindy, orZero]
  have h2 : defaultPolicy.wind_mod ≤ orZero hourWindy.wind_speed_10m_kmh ∨
      defaultPolicy.gust_mod ≤ orZero hourWindy.wind_gusts_10m_kmh := by
    norm_num [defaultPolicy, hourWindy, orZero]
  have h3 : ¬ defaultPolicy.precip_heavy ≤
      orZero hourWindy.precipitation_mm + orZero hourWindy.rain_mm := by
    norm_num [defaultPolicy, hourWindy, orZero]
  have h4 : ¬ defaultPolicy.precip_mod ≤
      orZero hourWindy.precipitation_mm + orZero hourWindy.rain_mm := by
    norm_num [defaultPolicy, hourWindy, orZero]
  have h5 : ¬ defaultPolicy.wave_high < (1 : ℚ) := by norm_num [defaultPolicy]
  have h6 : ¬ defaultPolicy.wave_elevated < (1 : ℚ) := by norm_num [defaultPolicy]
  have h7 : ¬ defaultPolicy.wave_moderate < (1 : ℚ) := by norm_num [defaultPolicy]
  exact ⟨⟨rfl, rfl, rfl, h1, h2, h3, h4, rfl, h5, h6, h7, rfl⟩,
    C4_additive_hours_dedup
      { hourly := List.replicate 3 hourWindy, marine_daily := marineQuiet }
      defaultPolicy FogPolicy.score hourWindy 3 1 (by norm_num) rfl rfl rfl
      h1 h2 h3 h4 rfl h5 h6 h7 rfl⟩

/-! ### Score nonnegativity under nonnegative weights. -/

theorem map_status_ne_unknown (score : ℤ) (hard_flag : Bool) (policy : SafetyPolicy) :
    map_status score hard_flag policy ≠ Status.Unknown := by
  simp only [map_status]
  split_ifs <;> simp

theorem fogStepRT_score_nonneg (policy : SafetyPolicy) (fp : FogPolicy) (code : Option ℤ)
    (st : RState) (hw : NonnegWeights policy) (h : 0 ≤ st.score) :
    0 ≤ (fogStepRT policy fp code st).score := by
  obtain ⟨h1, h2, h3, h4, h5, h6, h7, h8, h9, h10, h11, h12, h13, h14⟩ := hw
  cases fp <;> simp only [fogStepRT] <;> (try split_ifs) <;> (try dsimp only) <;> omega

theorem windStepRT_score_nonneg (policy : SafetyPolicy) (wind gust : ℚ) (st : RState)
    (hw : NonnegWeights policy) (h : 0 ≤ st.score) :
    0 ≤ (windStepRT policy wind gust st).score := by
  obtain ⟨h1, h2, h3, h4, h5, h6, h7, h8, h9, h10, h11, h12, h13, h14⟩ := hw
  simp only [windStepRT]
  split_ifs <;> (try dsimp only) <;> omega

theorem precipStepRT_score_nonneg (policy : SafetyPolicy) (precip : ℚ) (st : RState)
    (hw : NonnegWeights policy) (h : 0 ≤ st.score) :
    0 ≤ (precipStepRT policy precip st).score := by
  obtain ⟨h1, h2, h3, h4, h5, h6, h7, h8, h9, h10, h11, h12, h13, h14⟩ := hw
  simp only [precipStepRT]
  split_ifs <;> (try dsimp only) <;> omega

theorem waveStepRT_score_nonneg (policy : SafetyPolicy) (wave_h : Option ℚ) (st : RState)
    (hw : NonnegWeights policy) (h : 0 ≤ st.score) :
    0 ≤ (waveStepRT policy wave_h st).score := by
  obtain ⟨h1, h2, h3, h4, h5, h6, h7, h8, h9, h10, h11, h12, h13, h14⟩ := hw
  cases wave_h <;> simp only [waveStepRT] <;> (try split_ifs) <;> (try dsimp only) <;> omega

theorem swellStepRT_score_nonneg (policy : SafetyPolicy) (swell_h swell_p : Option ℚ)
    (st : RState) (hw : NonnegWeights policy) (h : 0 ≤ st.score) :
    0 ≤ (swellStepRT policy swell_h swell_p st).score := by
  obtain ⟨h1, h2, h3, h4, h5, h6, h7, h8, h9, h10, h11, h12, h13, h14⟩ := hw
  cases swell_h <;> cases swell_p <;> simp only [swellStepRT] <;> (try split_ifs) <;>
    (try dsimp only) <;> omega

theorem comfortStep_score (air_c : Option ℚ) (st : RState) :
    (comfortStep air_c st).score = st.score := by
  cases air_c <;> simp only [comfortStep] <;> split_ifs <;> rfl

theorem fogStepF_score_nonneg (policy : SafetyPolicy) (fp : FogPolicy) (code : Option ℤ)
    (st : RState) (hw : NonnegWeights policy) (h : 0 ≤ st.score) :
    0 ≤ (fogStepF policy fp code st).score := by
  obtain ⟨h1, h2, h3, h4, h5, h6, h7, h8, h9, h10, h11, h12, h13, h14⟩ := hw
  cases fp <;> simp only [fogStepF] <;> (try split_ifs) <;> (try dsimp only) <;> omega

theorem windStepF_score_nonneg (policy : SafetyPolicy) (wind gust : ℚ) (st : RState)
    (hw : NonnegWeights policy) (h : 0 ≤ st.score) :
    0 ≤ (windStepF policy wind gust st).score := by
  obtain ⟨h1, h2, h3, h4, h5, h6, h7, h8, h9, h10, h11, h12, h13, h14⟩ := hw
  simp only [windStepF]
  split_ifs <;> (try dsimp only) <;> omega

theorem precipStepF_score_nonneg (policy : SafetyPolicy) (precip : ℚ) (st : RState)
    (hw : NonnegWeights policy) (h : 0 ≤ st.score) :
    0 ≤ (precipStepF policy precip st).score := by
  obtain ⟨h1, h2, h3, h4, h5, h6, h7, h8, h9, h10, h11, h12, h13, h14⟩ := hw
  simp only [precipStepF]
  split_ifs <;> (try dsimp only) <;> omega

theorem forecastHourStep_score_nonneg (policy : SafetyPolicy) (fp : FogPolicy) (h : Wx)
    (st : RState) (hw : NonnegWeights policy) (hst : 0 ≤ st.score) :
    0 ≤ (forecastHourStep policy fp h st).1.score := by
  simp only [forecastHourStep]
  split_ifs
  · exact hst
  · exact precipStepF_score_nonneg _ _ _ hw
      (windStepF_score_nonneg _ _ _ _ hw (fogStepF_score_nonneg _ _ _ _ hw hst))

theorem scanHours_score_nonneg (policy : SafetyPolicy) (fp : FogPolicy)
    (hw : NonnegWeights policy) :
    ∀ (hourly : List Wx) (st : RState), 0 ≤ st.score →
      0 ≤ (scanHours policy fp hourly st).score
  | [], _, hst => hst
  | h :: rest, st, hst => by
      rw [scanHours]
      split
      · exact forecastHourStep_score_nonneg policy fp h st hw hst
      · exact scanHours_score_nonneg policy fp hw rest _
          (forecastHourStep_score_nonneg policy fp h st hw hst)

theorem waveStepF_score_nonneg (policy : SafetyPolicy) (wave_h : Option ℚ) (st : RState)
    (hw : NonnegWeights policy) (h : 0 ≤ st.score) :
    0 ≤ (waveStepF policy wave_h st).score := by
  obtain ⟨h1, h2, h3, h4, h5, h6, h7, h8, h9, h10, h11, h12, h13, h14⟩ := hw
  cases wave_h <;> simp only [waveStepF] <;> (try split_ifs) <;> (try dsimp only) <;> omega

theorem swellStepF_score_nonneg (policy : SafetyPolicy) (swell_h : Option ℚ)
    (st : RState) (hw : NonnegWeights policy) (h : 0 ≤ st.score) :
    0 ≤ (swellStepF policy swell_h st).score := by
  obtain ⟨h1, h2, h3, h4, h5, h6, h7, h8, h9, h10, h11, h12, h13, h14⟩ := hw
  cases swell_h <;> simp only [swellStepF] <;> (try split_ifs) <;> (try dsimp only) <;> omega

/-- C5 counterexample: a reading that triggers strong wind (40), heavy
rain (10), high waves (50) and large swell (40) at once yields score 140
under the default policy — an integer above 100 with a non-Unknown
status, refuting the claimed 0-100 range. -/
theorem C5_score_range_counterexample :
    (assess_realtime readingHighScore defaultPolicy FogPolicy.score).score = some 140 ∧
    (assess_realtime readingHighScore defaultPolicy FogPolicy.score).status =
      Status.Unsafe ∧
    ¬ (140 : ℤ) ≤ 100 := by
  refine ⟨?_, ?_, by decide⟩ <;>
    norm_num [assess_realtime, realtimeSteps14, thunderStepRT, fogStepRT, windStepRT,
      precipStepRT, waveStepRT, swellStepRT, comfortStep, finishVerdict, map_status,
      dedupe, dedupeAux, readingHighScore, defaultPolicy, initState, orZero, codeMem,
      fmt0, fmt1, fmt2, round, Int.floor]

/-- C5 amended: the score is null exactly when the status is Unknown
(`assess_realtime` never returns Unknown and always a numeric score);
when all weights and the caution minimum are nonnegative the numeric
score is ≥ 0 — but it is not bounded by 100. -/
theorem C5_score_null_iff_unknown_and_nonneg (policy : SafetyPolicy)
    (hw : NonnegWeights policy) (r : Reading) (f : Forecast) (fog_policy : FogPolicy) :
    ((assess_realtime r policy fog_policy).status ≠ Status.Unknown ∧
      ∃ s : ℤ, (assess_realtime r policy fog_policy).score = some s ∧ 0 ≤ s) ∧
    (((assess_forecast f policy fog_policy).score = none ↔
        (assess_forecast f policy fog_policy).status = Status.Unknown) ∧
      ∀ s : ℤ, (assess_forecast f policy fog_policy).score = some s → 0 ≤ s) := by
  have hrt : 0 ≤ (comfortStep r.weather.temperature_2m_c
      (swellStepRT policy r.marine.swell_wave_height_m r.marine.swell_wave_period_s
        (waveStepRT policy r.marine.wave_height_m
          (realtimeSteps14 policy fog_policy r.weather initState)))).score := by
    rw [comfortStep_score]
    refine swellStepRT_score_nonneg _ _ _ _ hw
      (waveStepRT_score_nonneg _ _ _ hw ?_)
    rw [realtimeSteps14]
    refine precipStepRT_score_nonneg _ _ _ hw
      (windStepRT_score_nonneg _ _ _ _ hw
        (fogStepRT_score_nonneg _ _ _ _ hw ?_))
    simp only [thunderStepRT]
    split_ifs <;> exact le_refl 0
  constructor
  · constructor
    · rw [assess_realtime]
      exact map_status_ne_unknown _ _ _
    · rw [assess_realtime, finishVerdict]
      refine ⟨_, rfl, ?_⟩
      split_ifs with hhard
      · omega
      · exact hrt
  · by_cases hne : f.hourly.isEmpty
    · rw [assess_forecast, if_pos hne]
      exact ⟨by simp, fun s hs => by cases hs⟩
    · have hfc : 0 ≤ (swellStepF policy f.marine_daily.swell_wave_height_max_m
          (waveStepF policy f.marine_daily.wave_height_max_m
            (scanHours policy fog_policy f.hourly initState))).score :=
        swellStepF_score_nonneg _ _ _ hw
          (waveStepF_score_nonneg _ _ _ hw
            (scanHours_score_nonneg policy fog_policy hw f.hourly initState (le_refl 0)))
      rw [assess_forecast, if_neg hne]
      refine ⟨⟨fun hnone => ?_, fun hunk => ?_⟩, fun s hs => ?_⟩
      · simp [finishVerdict] at hnone
      · simp only [finishVerdict] at hunk
        exact absurd hunk (map_status_ne_unknown _ _ _)
      · simp only [finishVerdict, Option.some.injEq] at hs
        subst hs
        split_ifs with hhard
        · omega
        · exact hfc

/-- Witness for C5 amended at the default policy, the empty reading and
the empty forecast. -/
theorem C5_score_null_iff_unknown_and_nonneg_witness :
    NonnegWeights defaultPolicy ∧
    (((assess_realtime {} defaultPolicy FogPolicy.score).status ≠ Status.Unknown ∧
      ∃ s : ℤ, (assess_realtime {} defaultPolicy FogPolicy.score).score = some s ∧ 0 ≤ s) ∧
    (((assess_forecast {} defaultPolicy FogPolicy.score).score = none ↔
        (assess_forecast {} defaultPolicy FogPolicy.score).status = Status.Unknown) ∧
      ∀ s : ℤ, (assess_forecast {} defaultPolicy FogPolicy.score).score = some s → 0 ≤ s)) :=
  ⟨by unfold NonnegWeights; decide,
    C5_score_null_iff_unknown_and_nonneg defaultPolicy
      (by unfold NonnegWeights; decide) {} {} FogPolicy.score⟩

/-- C6 counterexample: on a fog hour under fog mode "warn" (so the fog
weight difference is not even in play), the real-time steps 1-4 append a
tip and the real-time fog reason, while the forecast hour step appends no
tip and a differently worded fog reason — so the per-hour rules do not
have "the same reason and tip appending". -/
theorem C6_hour_rules_counterexample :
    (forecastHourStep defaultPolicy FogPolicy.warn hourFog initState).1.tips = [] ∧
    (realtimeSteps14 defaultPolicy FogPolicy.warn hourFog initState).tips =
      [Tip.fogTip] ∧
    (forecastHourStep defaultPolicy FogPolicy.warn hourFog initState).1.reasons =
      [Reason.fogF] ∧
    (realtimeSteps14 defaultPolicy FogPolicy.warn hourFog initState).reasons =
      [Reason.fogRT] ∧
    Reason.fogF ≠ Reason.fogRT ∧ ([] : List Tip) ≠ [Tip.fogTip] := by
  refine ⟨?_, ?_, ?_, ?_, by decide, by decide⟩ <;>
    norm_num [forecastHourStep, fogStepF, windStepF, precipStepF, realtimeSteps14,
      thunderStepRT, fogStepRT, windStepRT, precipStepRT, hourFog, defaultPolicy,
      initState, orZero, codeMem]

/-- C6 amended: for an hour on which the thunderstorm hard stop does not
fire, the forecast hour step applies the same trigger conditions and the
same score arithmetic as real-time steps 1-4 with the fog-realtime weight
replaced by the fog-forecast weight — it does not break, it produces the
same score, hard flag and number of appended reasons — but it never
appends tips (real-time fog and wind rules do), and its reason wordings
are forecast-specific.  On a thunderstorm hour the forecast step breaks
before the hour's remaining rules, unlike real-time. -/
theorem C6_hour_rules_amended (policy : SafetyPolicy) (fog_policy : FogPolicy)
    (h : Wx) (st : RState)
    (hth : (policy.thunderstorm_hard_stop && codeMem h.weather_code [95, 96, 99]) = false) :
    (forecastHourStep policy fog_policy h st).2 = false ∧
    (forecastHourStep policy fog_policy h st).1.score =
      (realtimeSteps14 { policy with score_fog_realtime := policy.score_fog_forecast }
        fog_policy h st).score ∧
    (forecastHourStep policy fog_policy h st).1.hard_flag =
      (realtimeSteps14 { policy with score_fog_realtime := policy.score_fog_forecast }
        fog_policy h st).hard_flag ∧
    (forecastHourStep policy fog_policy h st).1.reasons.length =
      (realtimeSteps14 { policy with score_fog_realtime := policy.score_fog_forecast }
        fog_policy h st).reasons.length ∧
    (forecastHourStep policy fog_policy h st).1.tips = st.tips := by
  cases fog_policy <;>
    simp only [forecastHourStep, realtimeSteps14, thunderStepRT, fogStepF, fogStepRT,
      windStepF, windStepRT, precipStepF, precipStepRT, hth, Bool.false_eq_true,
      if_false] <;>
    split_ifs <;> simp

/-- Witness for C6 amended at a fog hour, the default policy, fog mode
"score" and the empty state. -/
theorem C6_hour_rules_amended_witness :
    (defaultPolicy.thunderstorm_hard_stop && codeMem hourFog.weather_code [95, 96, 99])
      = false ∧
    ((forecastHourStep defaultPolicy FogPolicy.score hourFog initState).2 = false ∧
    (forecastHourStep defaultPolicy FogPolicy.score hourFog initState).1.score =
      (realtimeSteps14
        { defaultPolicy with score_fog_realtime := defaultPolicy.score_fog_forecast }
        FogPolicy.score hourFog initState).score ∧
    (forecastHourStep defaultPolicy FogPolicy.score hourFog initState).1.hard_flag =
      (realtimeSteps14
        { defaultPolicy with score_fog_realtime := defaultPolicy.score_fog_forecast }
        FogPolicy.score hourFog initState).hard_flag ∧
    (forecastHourStep defaultPolicy FogPolicy.score hourFog initState).1.reasons.length =
      (realtimeSteps14
        { defaultPolicy with score_fog_realtime := defaultPolicy.score_fog_forecast }
        FogPolicy.score hourFog initState).reasons.length ∧
    (forecastHourStep defaultPolicy FogPolicy.score hourFog initState).1.tips =
      initState.tips) :=
  ⟨rfl, C6_hour_rules_amended defaultPolicy FogPolicy.score hourFog initState rfl⟩

end RiskEngine

end DiveWeather
